import Mathlib

/-!
Verification development for the feelgood-api supply-chain scripts
(`scripts/compare_scans.py`, `scripts/generate_vex.py`,
`scripts/verify_attestations.py`).

The Python sources are shallowly embedded: dictionaries become association
lists (Python dicts preserve insertion order), Python sets of strings are
modelled through their membership, and where the code iterates over a set
(whose iteration order CPython does not specify) the enumeration order is
either irrelevant to the stated property or passed in explicitly.  Strings
are Lean `String`s; the code under scrutiny only manipulates ASCII, for
which `Char.toLower`/`Char.toUpper` agree with Python's `str.lower`/
`str.upper`.  All definitions are executable.
-/

/-! ## String helpers shared by the embeddings -/

/-- Python `s.lower()` (ASCII; the scripts only compare ASCII data). -/
def py_lower (s : String) : String := ⟨s.data.map Char.toLower⟩

/-- Python `s.upper()` (ASCII). -/
def py_upper (s : String) : String := ⟨s.data.map Char.toUpper⟩

/-- `sub` occurs as a contiguous sublist of the second list. -/
def list_is_infix (sub : List Char) : List Char → Bool
  | [] => sub.isEmpty
  | c :: t => sub.isPrefixOf (c :: t) || list_is_infix sub t

/-- Python `sub in s`: `sub` occurs in `s` as a contiguous substring. -/
def str_contains (s sub : String) : Bool := list_is_infix sub.data s.data

/-- Python `s.startswith(p)`, computed on the underlying character lists so
that it reduces inside the kernel. -/
def str_starts_with (s p : String) : Bool := p.data.isPrefixOf s.data

/-! ## Embedding of `scripts/compare_scans.py` (`ScanComparator`)

`extract_vulnerabilities` builds, per scan file, a dict mapping the composite
key `f"{vuln_id}:{pkg_name}:{installed_version}:{target}"` to a record dict
(lines 24-54).  A snapshot is modelled as that association list; the claims
quantify over snapshots, so the extraction loop itself is not re-traversed.
The record's `cvss_score` entry is a float computed by `get_cvss_score`; no
claim computes with it, so the record carries it as an uninterpreted string
field. -/

/-- One value of the `vulnerabilities[key]` dict built at
`compare_scans.py:39-52`; every field defaults to `""` exactly as the
`vuln.get(..., "")` calls do (`Severity` defaults to `"UNKNOWN"`). -/
structure Vuln where
  id : String := ""
  package : String := ""
  installed_version : String := ""
  fixed_version : String := ""
  severity : String := "UNKNOWN"
  title : String := ""
  description : String := ""
  target : String := ""
  cvss_score : String := ""
  primary_url : String := ""
  published_date : String := ""
  last_modified_date : String := ""
deriving DecidableEq

/-- A scan snapshot: the `vulnerabilities` dict of `extract_vulnerabilities`
as an insertion-ordered association list (keys are unique in a Python dict). -/
abbrev Snapshot : Type := List (String × Vuln)

/-- `set(vulns.keys())` viewed through the dict's insertion order. -/
def snapshot_keys (s : Snapshot) : List String := s.map Prod.fst

/-- `current_keys - previous_keys` (compare_scans.py:94); enumerated here in
the current snapshot's insertion order, but every property proved through
this definition depends only on its membership and length. -/
def new_keys (prev cur : Snapshot) : List String :=
  (snapshot_keys cur).filter (fun k => decide (k ∉ snapshot_keys prev))

/-- `previous_keys - current_keys` (compare_scans.py:95). -/
def resolved_keys (prev cur : Snapshot) : List String :=
  (snapshot_keys prev).filter (fun k => decide (k ∉ snapshot_keys cur))

/-- `previous_keys & current_keys` (compare_scans.py:96). -/
def unchanged_keys (prev cur : Snapshot) : List String :=
  (snapshot_keys prev).filter (fun k => decide (k ∈ snapshot_keys cur))

/-- `[vulns[key] for key in keys]`: dict lookup for each key of an
enumeration.  In the script the keys always come from the dict, so the
lookup never fails; `filterMap` records the same behaviour. -/
def lookup_vulns (snap : Snapshot) (ks : List String) : List Vuln :=
  ks.filterMap (fun k => List.lookup k snap)

/-- The `severity_order` table of `ScanComparator.__init__`
(compare_scans.py:15-22) together with the `.get(v, 0)` default used at
line 162. -/
def severity_order (sev : String) : Nat :=
  if sev = "CRITICAL" then 5
  else if sev = "HIGH" then 4
  else if sev = "MEDIUM" then 3
  else if sev = "LOW" then 2
  else if sev = "NEGLIGIBLE" then 1
  else 0

/-- Severity rank of a record: `severity_order.get(v["severity"], 0)`. -/
def vuln_rank (v : Vuln) : Nat := severity_order v.severity

/-- One step of Python's `max(..., key=...)`: the running maximum is replaced
only on a strictly greater key, so the first maximal element encountered is
kept. -/
def max_step (acc u : Vuln) : Vuln :=
  if vuln_rank acc < vuln_rank u then u else acc

/-- `max(new_vulns, key=lambda v: severity_order.get(v["severity"], 0))`
(compare_scans.py:162); `none` when the list is empty (the script only
evaluates it under `if new_keys:`). -/
def py_max_by_severity : List Vuln → Option Vuln
  | [] => none
  | v :: vs => some (vs.foldl max_step v)

/-- The four fields of `summary["highest_severity_new"]`
(compare_scans.py:163-168). -/
structure HighestNew where
  id : String
  severity : String
  package : String
  cvss_score : String
deriving DecidableEq

/-- Projection of the selected record onto `summary["highest_severity_new"]`. -/
def highest_new_of (v : Vuln) : HighestNew :=
  { id := v.id, severity := v.severity, package := v.package,
    cvss_score := v.cvss_score }

/-- `len([v for v in vulns if v["severity"] == sev])`. -/
def count_severity (vs : List Vuln) (sev : String) : Nat :=
  (vs.filter (fun v => v.severity == sev)).length

/-- The severity histogram used for `new_vulnerabilities_summary` and
`resolved_vulnerabilities_summary` (compare_scans.py:153-159, 172-178). -/
structure SeverityCounts where
  critical : Nat
  high : Nat
  medium : Nat
  low : Nat
  negligible : Nat
deriving DecidableEq

/-- Build the histogram exactly as the five list comprehensions do. -/
def severity_counts_of (vs : List Vuln) : SeverityCounts :=
  { critical := count_severity vs "CRITICAL",
    high := count_severity vs "HIGH",
    medium := count_severity vs "MEDIUM",
    low := count_severity vs "LOW",
    negligible := count_severity vs "NEGLIGIBLE" }

/-- The risk-assessment tail of `generate_summary`
(compare_scans.py:180-195): counts of added CRITICAL/HIGH records drive a
four-way cascade that pairs a risk level with a recommended-action string.
`len(new_keys)` equals the length of the added-record list, every added key
being a key of the current dict. -/
def risk_assessment (new_vulns : List Vuln) : String × String :=
  let critical_new := count_severity new_vulns "CRITICAL"
  let high_new := count_severity new_vulns "HIGH"
  if 0 < critical_new then
    ("CRITICAL", "Immediate attention required - critical vulnerabilities detected")
  else if 0 < high_new then
    ("HIGH", "High priority vulnerabilities require prompt remediation")
  else if 0 < new_vulns.length then
    ("MEDIUM", "New vulnerabilities detected - review and plan remediation")
  else
    ("LOW", "No new vulnerabilities detected")

/-- The spec's wording of the same cascade (spec §4.2): any added CRITICAL
record gives CRITICAL, else any added HIGH gives HIGH, else any addition at
all gives MEDIUM, else LOW, each level paired with its action string.
Stated separately from `risk_assessment` so the code's counting version can
be proved to refine it. -/
def risk_assessment_spec (new_vulns : List Vuln) : String × String :=
  if new_vulns.any (fun v => v.severity == "CRITICAL") then
    ("CRITICAL", "Immediate attention required - critical vulnerabilities detected")
  else if new_vulns.any (fun v => v.severity == "HIGH") then
    ("HIGH", "High priority vulnerabilities require prompt remediation")
  else if !new_vulns.isEmpty then
    ("MEDIUM", "New vulnerabilities detected - review and plan remediation")
  else
    ("LOW", "No new vulnerabilities detected")

/-- The `summary` dict of `generate_summary` (compare_scans.py:141-197).
Keys that the code only inserts conditionally are `Option` fields (`none`
models an absent key). -/
structure Summary where
  has_new_vulnerabilities : Bool
  has_resolved_vulnerabilities : Bool
  net_change : Int
  new_vulnerabilities_summary : Option SeverityCounts
  highest_severity_new : Option HighestNew
  resolved_vulnerabilities_summary : Option SeverityCounts
  risk_level : String
  recommended_action : String
deriving DecidableEq

/-- `generate_summary(new_keys, resolved_keys, current_vulns, previous_vulns)`
with the two record lists `[current_vulns[k] for k in new_keys]` and
`[previous_vulns[k] for k in resolved_keys]` passed in directly (the caller
fixes the enumeration order of the two key sets). -/
def generate_summary (new_vulns resolved_vulns : List Vuln) : Summary :=
  { has_new_vulnerabilities := decide (0 < new_vulns.length),
    has_resolved_vulnerabilities := decide (0 < resolved_vulns.length),
    net_change := (new_vulns.length : Int) - (resolved_vulns.length : Int),
    new_vulnerabilities_summary :=
      if new_vulns.isEmpty then none else some (severity_counts_of new_vulns),
    highest_severity_new := (py_max_by_severity new_vulns).map highest_new_of,
    resolved_vulnerabilities_summary :=
      if resolved_vulns.isEmpty then none else some (severity_counts_of resolved_vulns),
    risk_level := (risk_assessment new_vulns).1,
    recommended_action := (risk_assessment new_vulns).2 }

/-- One step of `categorize_by_severity` (compare_scans.py:129-139): append
the record to its severity's bucket, creating the bucket at the end on first
encounter, exactly as the Python dict grows. -/
def add_by_severity (acc : List (String × List Vuln)) (v : Vuln) :
    List (String × List Vuln) :=
  if acc.any (fun p => p.1 == v.severity) then
    acc.map (fun p => if p.1 == v.severity then (p.1, p.2 ++ [v]) else p)
  else
    acc ++ [(v.severity, [v])]

/-- `categorize_by_severity(vulnerabilities)`. -/
def categorize_by_severity (vs : List Vuln) : List (String × List Vuln) :=
  vs.foldl add_by_severity []

/-- `comparison["comparison_metadata"]` (compare_scans.py:100-107); the
timestamp string is a parameter standing for `datetime.now().isoformat()`. -/
structure ComparisonMetadata where
  timestamp : String
  previous_scan_vulns : Nat
  current_scan_vulns : Nat
  new_vulnerabilities_count : Nat
  resolved_vulnerabilities_count : Nat
  unchanged_vulnerabilities_count : Nat
deriving DecidableEq

/-- The `comparison` dict returned by `compare_scans`
(compare_scans.py:98-127).  `new_vulnerabilities_by_severity` is only
inserted when the new-key set is non-empty (line 115), hence an `Option`
field, `none` meaning the key is absent from the emitted JSON. -/
structure Comparison where
  comparison_metadata : ComparisonMetadata
  new_vulnerabilities : List Vuln
  resolved_vulnerabilities : List Vuln
  unchanged_vulnerabilities : List Vuln
  summary : Summary
  new_vulnerabilities_by_severity : Option (List (String × List Vuln))
  high_priority_new_vulnerabilities : List Vuln
deriving DecidableEq

/-- `compare_scans` after the two files were loaded into snapshots
(compare_scans.py:90-127).  The derived record lists are enumerated in the
current snapshot's insertion order; every claim proved through this
definition is independent of that enumeration choice (the one order-sensitive
output, the tie-break inside the summary, is analysed separately with an
explicit enumeration). -/
def compare_scans (previous_vulns current_vulns : Snapshot) (now : String) :
    Comparison :=
  let nk := new_keys previous_vulns current_vulns
  let rk := resolved_keys previous_vulns current_vulns
  let uk := unchanged_keys previous_vulns current_vulns
  let new_vulns := lookup_vulns current_vulns nk
  let resolved_vulns := lookup_vulns previous_vulns rk
  { comparison_metadata :=
      { timestamp := now,
        previous_scan_vulns := previous_vulns.length,
        current_scan_vulns := current_vulns.length,
        new_vulnerabilities_count := nk.length,
        resolved_vulnerabilities_count := rk.length,
        unchanged_vulnerabilities_count := uk.length },
    new_vulnerabilities := new_vulns,
    resolved_vulnerabilities := resolved_vulns,
    unchanged_vulnerabilities := lookup_vulns current_vulns uk,
    summary := generate_summary new_vulns resolved_vulns,
    new_vulnerabilities_by_severity :=
      if nk.isEmpty then none else some (categorize_by_severity new_vulns),
    high_priority_new_vulnerabilities :=
      new_vulns.filter (fun v => v.severity == "CRITICAL" || v.severity == "HIGH") }

/-- The top-level keys present in the emitted comparison JSON, in insertion
order (compare_scans.py:99-125). -/
def comparison_fields (c : Comparison) : List String :=
  ["comparison_metadata", "new_vulnerabilities", "resolved_vulnerabilities",
   "unchanged_vulnerabilities", "summary"]
  ++ (match c.new_vulnerabilities_by_severity with
      | some _ => ["new_vulnerabilities_by_severity"]
      | none => [])
  ++ ["high_priority_new_vulnerabilities"]

/-- A valid iteration order of the CPython set with elements `canonical`:
some duplicate-free enumeration of exactly those elements.  CPython's actual
order is hash-dependent (and randomised between processes for strings), so
only this membership contract is available to reason with. -/
def is_set_enum (canonical order : List String) : Bool :=
  decide order.Nodup
    && order.all (fun k => canonical.contains k)
    && canonical.all (fun k => order.contains k)

/-! ## Embedding of `scripts/generate_vex.py` (`VEXGenerator`)

The generator reads a Trivy scan document, classifies each vulnerability
with `analyze_vulnerability`, and assembles an OpenVEX document.  File I/O
and the wall clock are the only effects: parsing outcomes are passed in as
an `Option` and `datetime.now().isoformat()` as a string parameter. -/

/-- A per-source CVSS entry (`cvss[source]` with its optional `V3Score` /
`V2Score`).  Scores are modelled as rationals: the embedding never does
float arithmetic on them, only the truthiness test `if score:` and the
comparison `> 0`. -/
structure CvssEntry where
  V3Score : Option ℚ := none
  V2Score : Option ℚ := none

/-- One entry of `Results[].Vulnerabilities[]` as read by generate_vex.py;
each field defaults exactly as the corresponding `vuln.get(..., "")`. -/
structure TrivyVuln where
  VulnerabilityID : String := ""
  PkgName : String := ""
  InstalledVersion : String := ""
  FixedVersion : String := ""
  Severity : String := ""
  Title : String := ""
  Description : String := ""
  CVSS : List (String × CvssEntry) := []

/-- One entry of `Results[]`: a target group with its vulnerability list
(the `Target` string is read into a local that the loop never uses). -/
structure TrivyResult where
  Target : String := ""
  Vulnerabilities : List TrivyVuln := []

/-- A parsed Trivy document: its `Results` list. -/
abbrev TrivyData : Type := List TrivyResult

/-- An SBOM component `{name, version}`; `analyze_vulnerability` scans the
list for a matching name but never uses the match (generate_vex.py:51-56). -/
structure SbomComponent where
  name : String := ""
  version : String := ""

/-- The dict returned by `analyze_vulnerability` minus its
`analysis_timestamp` key (a wall-clock string no claim mentions). -/
structure Analysis where
  state : String
  justification : String
  response : List String
  detail : String
deriving DecidableEq

/-- The development/test package-name markers of rule 1
(generate_vex.py:70). -/
def dev_markers : List String := ["test", "dev", "debug", "mock", "fixture"]

/-- The non-exploitable description patterns of rule 3
(generate_vex.py:84-87). -/
def nonexploitable_patterns : List String :=
  ["requires local access", "requires physical access", "denial of service",
   "information disclosure", "requires authenticated user"]

/-- The non-executable-content title markers of rule 4
(generate_vex.py:94). -/
def nonexecutable_markers : List String := ["documentation", "example", "sample"]

/-- The ordered first-match rule cascade of `analyze_vulnerability`
(generate_vex.py:58-105), before the fixed-version adjustment.  The
chained `if/elif` over the lower-cased package name, the upper-cased
severity, the lower-cased description and title, with the initial defaults
as the final `else`. -/
def analysis_cascade (vuln : TrivyVuln) : Analysis :=
  let severity := py_upper vuln.Severity
  let title := py_lower vuln.Title
  let description := py_lower vuln.Description
  if dev_markers.any (fun m => str_contains (py_lower vuln.PkgName) m) then
    { state := "not_affected", justification := "code_not_present",
      detail := "Component " ++ vuln.PkgName
        ++ " is only used in development/testing environments",
      response := ["will_not_fix"] }
  else if ["LOW", "NEGLIGIBLE"].contains severity then
    { state := "not_affected", justification := "protected_by_mitigating_control",
      detail := "Low severity vulnerability mitigated by security controls and monitoring",
      response := ["will_not_fix"] }
  else if nonexploitable_patterns.any (fun p => str_contains description p) then
    { state := "not_affected", justification := "requires_environment",
      detail := "Vulnerability requires specific conditions not present in production environment",
      response := ["will_not_fix"] }
  else if nonexecutable_markers.any (fun p => str_contains title p) then
    { state := "not_affected", justification := "code_not_present",
      detail := "Vulnerability in non-executable content",
      response := ["will_not_fix"] }
  else if ["CRITICAL", "HIGH"].contains severity then
    { state := "under_investigation", justification := "requires_configuration",
      detail := "High/Critical severity vulnerability requires detailed analysis",
      response := ["can_not_fix", "update"] }
  else
    { state := "under_investigation", justification := "requires_configuration",
      detail := "Analyzing vulnerability " ++ vuln.VulnerabilityID
        ++ " in component " ++ vuln.PkgName ++ "@" ++ vuln.InstalledVersion,
      response := ["will_not_fix"] }

/-- The post-cascade adjustment (generate_vex.py:107-113): when a fixed
version is present (`fixed_version and fixed_version != ""`, i.e. the string
is non-empty) and the state is not already `not_affected`, force the state
to `affected`, the response to `["update"]`, and append the fixed-version
note to the detail text.  The justification is left untouched. -/
def fixed_version_override (fixed_version : String) (a : Analysis) : Analysis :=
  if fixed_version = "" then a
  else if a.state = "not_affected" then a
  else
    { a with
      state := "affected"
      response := ["update"]
      detail := a.detail ++ ". Fixed in version " ++ fixed_version }

/-- `analyze_vulnerability(vuln, sbom_components, image_ref)`
(generate_vex.py:44-121): the rule cascade followed by the fixed-version
adjustment.  `sbom_components` and `image_ref` are accepted exactly as in
the source, where the component lookup result and the reference are never
used by the analysis. -/
def analyze_vulnerability (vuln : TrivyVuln) (sbom_components : List SbomComponent)
    (image_ref : Option String) : Analysis :=
  fixed_version_override vuln.FixedVersion (analysis_cascade vuln)

/-- Python truthiness of an optional-string argument (`if image_ref:`):
present and non-empty. -/
def opt_truthy : Option String → Bool
  | none => false
  | some s => !(s == "")

/-- `create_product_identifier(image_ref, pkg_name, pkg_version)`
(generate_vex.py:123-147): wrap an explicit artifact reference as an OCI
package URL (stripping the known registry hosts), else infer the ecosystem
from the first matching package-name marker, defaulting to `pkg:generic`. -/
def create_product_identifier (image_ref : Option String)
    (pkg_name pkg_version : String) : String :=
  match image_ref with
  | some ref =>
    if opt_truthy (some ref) then
      if str_starts_with ref "pkg:" then ref
      else "pkg:oci/" ++ ((ref.replace "ghcr.io/" "").replace "docker.io/" "")
    else product_fallback pkg_name pkg_version
  | none => product_fallback pkg_name pkg_version
where
  /-- The package-level fallback chain (generate_vex.py:134-147). -/
  product_fallback (pkg_name pkg_version : String) : String :=
    if [".jar", "maven"].any (fun m => str_contains pkg_name m) then
      "pkg:maven/" ++ pkg_name ++ "@" ++ pkg_version
    else if ["node_modules", "npm"].any (fun m => str_contains pkg_name m) then
      "pkg:npm/" ++ pkg_name ++ "@" ++ pkg_version
    else if ["site-packages", "pypi"].any (fun m => str_contains pkg_name m) then
      "pkg:pypi/" ++ pkg_name ++ "@" ++ pkg_version
    else if ["apk", "alpine"].any (fun m => str_contains pkg_name m) then
      "pkg:apk/alpine/" ++ pkg_name ++ "@" ++ pkg_version
    else if ["deb", "ubuntu", "debian"].any (fun m => str_contains pkg_name m) then
      "pkg:deb/ubuntu/" ++ pkg_name ++ "@" ++ pkg_version
    else
      "pkg:generic/" ++ pkg_name ++ "@" ++ pkg_version

/-- `extract_cvss_score(vuln)` of generate_vex.py:222-233: probe the CVSS
sources in order, inside each prefer `V3Score or V2Score` (Python `or`
skips falsy values, so a 0 score falls through), return the first truthy
score and 0.0 otherwise. -/
def extract_cvss_probe (cvss : List (String × CvssEntry)) : List String → ℚ
  | [] => 0
  | s :: rest =>
    match List.lookup s cvss with
    | none => extract_cvss_probe cvss rest
    | some entry =>
      let score := match entry.V3Score with
        | some x => if x ≠ 0 then some x else entry.V2Score
        | none => entry.V2Score
      match score with
      | some x => if x ≠ 0 then x else extract_cvss_probe cvss rest
      | none => extract_cvss_probe cvss rest

/-- The source priority list of generate_vex.py:227. -/
def extract_cvss_score (vuln : TrivyVuln) : ℚ :=
  extract_cvss_probe vuln.CVSS ["nvd", "redhat", "ubuntu", "ghsa"]

/-- One element of the OpenVEX `statements[]` array
(generate_vex.py:188-216).  Optional JSON keys are `Option` fields; the
`impact_statement` carries the positive CVSS score whose source rendering
`f"CVSS Score: {score}"` is float formatting outside the embedding. -/
structure VexStatement where
  vulnerability_name : String
  timestamp : String
  products : List String
  status : String
  justification : Option String := none
  detail : Option String := none
  action_statement : Option String := none
  impact_statement : Option ℚ := none

/-- The OpenVEX document shape of `create_openvex_document`
(generate_vex.py:235-258); the JSON keys `@context` and `@id` are the
`context` and `id` fields.  `now` stands for both the timestamp and the
`%Y%m%d%H%M%S` document-id suffix derived from the same clock. -/
structure VexDocument where
  context : String
  id : String
  author : String
  timestamp : String
  version : Nat
  statements : List VexStatement
  document_notes : Option String := none

/-- `create_openvex_document(statements, image_ref)`. -/
def create_openvex_document (statements : List VexStatement)
    (image_ref : Option String) (author now : String) : VexDocument :=
  { context := "https://openvex.dev/ns/v0.2.0",
    id := "https://openvex.dev/docs/public/vex-" ++ now,
    author := author,
    timestamp := now,
    version := 1,
    statements := statements,
    document_notes :=
      if opt_truthy image_ref then
        match image_ref with
        | some ref => some ("VEX document generated for container image: " ++ ref)
        | none => none
      else none }

/-- `generate_default_vex(image_ref)` (generate_vex.py:260-284): the single
placeholder statement emitted when no scan results are available. -/
def generate_default_vex (image_ref : Option String) (author now : String) :
    VexDocument :=
  let product_id :=
    if opt_truthy image_ref then
      match image_ref with
      | some ref =>
        if !(str_starts_with ref "pkg:") then
          create_product_identifier (some ref) "feelgood-api" "1.0.0"
        else ref
      | none => "pkg:generic/feelgood-api@1.0.0"
    else "pkg:generic/feelgood-api@1.0.0"
  create_openvex_document
    [{ vulnerability_name := "PLACEHOLDER-VEX",
       timestamp := now,
       products := [product_id],
       status := "not_affected",
       justification := some "code_not_present",
       detail := some "No vulnerabilities detected in current scan - placeholder VEX statement" }]
    image_ref author now

/-- Build one OpenVEX statement for a vulnerability
(generate_vex.py:177-218): run the analysis, derive the product identifier,
and attach the conditional keys (`justification` when truthy, `detail` when
truthy, `action_statement` for `not_affected` with a non-empty response,
`impact_statement` for `affected` with a positive CVSS score). -/
def build_statement (vuln : TrivyVuln) (sbom_components : List SbomComponent)
    (image_ref : Option String) (now : String) : VexStatement :=
  let analysis := analyze_vulnerability vuln sbom_components image_ref
  let product_id := create_product_identifier image_ref vuln.PkgName vuln.InstalledVersion
  { vulnerability_name := vuln.VulnerabilityID,
    timestamp := now,
    products := [product_id],
    status := analysis.state,
    justification := if analysis.justification = "" then none else some analysis.justification,
    detail := if analysis.detail = "" then none else some analysis.detail,
    action_statement :=
      if analysis.state = "not_affected" then analysis.response.head? else none,
    impact_statement :=
      if analysis.state = "affected" ∧ 0 < extract_cvss_score vuln then
        some (extract_cvss_score vuln)
      else none }

/-- `generate_vex_from_trivy(trivy_file, sbom_file, image_ref)`
(generate_vex.py:149-220) after I/O: `parsed = none` models a Trivy
document that could not be opened or parsed (the `except` path of lines
154-159), in which case the generator falls back to the default document;
otherwise every vulnerability of every result group becomes a statement. -/
def generate_vex_from_trivy (parsed : Option TrivyData)
    (sbom_components : List SbomComponent) (image_ref : Option String)
    (author now : String) : VexDocument :=
  match parsed with
  | none => generate_default_vex image_ref author now
  | some results =>
    create_openvex_document
      ((results.map (fun r =>
          r.Vulnerabilities.map (fun v => build_statement v sbom_components image_ref now))).flatten)
      image_ref author now

/-! ## Embedding of `scripts/verify_attestations.py` (`AttestationVerifier`)

The constructor validates its two inputs with anchored regular expressions
before any subprocess is invoked; the regexes are decided here by direct
recursive matchers.  Both source patterns are unions of components whose
character classes exclude the separators `/`, `:` and `@`, so a matching
string decomposes uniquely at those separators and the backtracking
semantics of `re.match` coincides with the deterministic split performed
below.  Python's `$` also accepts one trailing newline, reproduced in the
two top-level matchers. -/

/-- The regex class `[a-zA-Z0-9]` (Python regexes are ASCII here). -/
def is_alnum (c : Char) : Bool := c.isAlpha || c.isDigit

/-- The class `[a-zA-Z0-9\-\.]` of the first image-reference component. -/
def is_name_char (c : Char) : Bool := is_alnum c || c == '-' || c == '.'

/-- The class `[a-zA-Z0-9\-\._]` of later components and of tags. -/
def is_path_char (c : Char) : Bool := is_alnum c || c == '-' || c == '.' || c == '_'

/-- The class `[a-zA-Z0-9\-]` inside a repository owner. -/
def is_owner_char (c : Char) : Bool := is_alnum c || c == '-'

/-- The class `[a-f0-9]` of a digest. -/
def is_hex_lower (c : Char) : Bool := c.isDigit || ('a' ≤ c && c ≤ 'f')

/-- The sub-pattern `[a-zA-Z0-9](MID*[a-zA-Z0-9])?`: non-empty, first and
last characters alphanumeric, all characters in between in `MID`. -/
def matches_atom (mid : Char → Bool) (s : List Char) : Bool :=
  match s with
  | [] => false
  | c :: cs =>
    is_alnum c &&
      match cs.getLast? with
      | none => true
      | some l => cs.dropLast.all mid && is_alnum l

/-- The sub-pattern `[a-zA-Z0-9]MID*[a-zA-Z0-9]`: like `matches_atom` but
the closing alphanumeric is mandatory, so at least two characters. -/
def matches_pair (mid : Char → Bool) (s : List Char) : Bool :=
  match s with
  | [] => false
  | c :: cs =>
    match cs.getLast? with
    | none => false
    | some l => is_alnum c && cs.dropLast.all mid && is_alnum l

/-- The path part `FIRST(/COMP)*` of the image-reference pattern
(verify_attestations.py:36): split on `/`, the first component drawn from
the dot/dash class, the later ones additionally allowing underscores. -/
def matches_ref_body (body : List Char) : Bool :=
  match body.splitOn '/' with
  | [] => false
  | c0 :: rest =>
    matches_atom is_name_char c0 && rest.all (fun c => matches_atom is_path_char c)

/-- The digest alternative `sha256:[a-f0-9]{64}` (the part after `@`). -/
def matches_digest (rest : List Char) : Bool :=
  "sha256:".data.isPrefixOf rest &&
    (let h := rest.drop 7
     h.length == 64 && h.all is_hex_lower)

/-- The full pattern of `_validate_image_ref` (verify_attestations.py:36)
without the end anchor's newline allowance:
`^FIRST(/COMP)*(@sha256:[a-f0-9]{64}|:TAG)$`.  `@` cannot occur in any
component, tag or digest character class, and `:` only inside the digest
alternative's literal `sha256:`, so matching splits at the first `@` or,
absent one, at the unique `:`. -/
def match_image_ref_core (s : List Char) : Bool :=
  match s.splitOn '@' with
  | [body, rest] => matches_ref_body body && matches_digest rest
  | [whole] =>
    match whole.splitOn ':' with
    | [body, tag] => matches_ref_body body && matches_atom is_path_char tag
    | _ => false
  | _ => false

/-- `re.match(pattern, s)` for the image-reference pattern: anchored on
both sides, with Python's `$` also matching just before one final
newline. -/
def match_image_ref (s : String) : Bool :=
  match_image_ref_core s.data ||
    (match s.data.getLast? with
     | some c => c == '\n' && match_image_ref_core s.data.dropLast
     | none => false)

/-- The pattern of `_validate_repository` (verify_attestations.py:53):
`^OWNER/NAME$` with `OWNER = [a-zA-Z0-9][a-zA-Z0-9\-]*[a-zA-Z0-9]` and
`NAME = [a-zA-Z0-9][a-zA-Z0-9\-\._]*[a-zA-Z0-9]` (each at least two
characters); no class contains `/`, so the split at the unique slash is
forced. -/
def match_repo_core (s : List Char) : Bool :=
  match s.splitOn '/' with
  | [owner, name] => matches_pair is_owner_char owner && matches_pair is_path_char name
  | _ => false

/-- `re.match` for the repository pattern, `$` again allowing one final
newline. -/
def match_repo (s : String) : Bool :=
  match_repo_core s.data ||
    (match s.data.getLast? with
     | some c => c == '\n' && match_repo_core s.data.dropLast
     | none => false)

/-- `VERIFICATION_CONFIG["allowed_repos"]` (verify_attestations.py:18). -/
def allowed_repos : List String := ["plamen/feelgood-api"]

/-- `_validate_image_ref(image_ref)` (verify_attestations.py:29-45):
reject an empty string, a string failing the OCI pattern, or one longer
than 512 characters; `Except.error` models the raised `ValueError`. -/
def validate_image_ref (image_ref : String) : Except String String :=
  if image_ref = "" then
    Except.error "Image reference must be a non-empty string"
  else if !(match_image_ref image_ref) then
    Except.error ("Invalid OCI image reference format: " ++ image_ref)
  else if 512 < image_ref.length then
    Except.error "Image reference too long"
  else
    Except.ok image_ref

/-- `_validate_repository(repository)` (verify_attestations.py:47-61):
reject an empty string, a string failing the owner/name pattern, or a
repository outside the allow-list. -/
def validate_repository (repository : String) : Except String String :=
  if repository = "" then
    Except.error "Repository must be a non-empty string"
  else if !(match_repo repository) then
    Except.error ("Invalid GitHub repository format: " ++ repository)
  else if !(allowed_repos.contains repository) then
    Except.error ("Repository " ++ repository ++ " not in allowed list")
  else
    Except.ok repository

/-- The verifier state after `__init__` (verify_attestations.py:24-27). -/
structure AttestationVerifier where
  image_ref : String
  repository : String
  verified_components : List String

/-- `AttestationVerifier(image_ref, repository)`: validate the image
reference, then the repository, before anything else; the constructor makes
no external call — every subprocess invocation lives in the `verify_*`
methods, which can only run on a successfully constructed verifier. -/
def attestation_verifier_init (image_ref repository : String) :
    Except String AttestationVerifier :=
  match validate_image_ref image_ref with
  | Except.error e => Except.error e
  | Except.ok i =>
    match validate_repository repository with
    | Except.error e => Except.error e
    | Except.ok r =>
      Except.ok { image_ref := i, repository := r, verified_components := [] }

/-- Whether construction succeeded (no `ValueError` raised). -/
def is_accepted {α : Type} : Except String α → Bool
  | Except.ok _ => true
  | Except.error _ => false

/-- `[comp for comp in verified_components if comp.startswith("sbom-")]`
(verify_attestations.py:412). -/
def sbom_components_of (components : List String) : List String :=
  components.filter (fun c => str_starts_with c "sbom-")

/-- The SLSA-level derivation inside `generate_verification_report`
(verify_attestations.py:411-421), as the source nests it. -/
def slsa_level (components : List String) : String :=
  if components.contains "slsa-provenance" then
    if 3 ≤ (sbom_components_of components).length ∧ components.contains "vex-attestations" then
      "3+"
    else if 1 ≤ (sbom_components_of components).length then "3"
    else "2+"
  else "unknown"

/-- The spec's wording of the level derivation (spec §4.4): a flat
first-match cascade over the three guarded levels, else `"unknown"`.
Stated separately so the nested source version can be proved equal to it. -/
def slsa_level_spec (components : List String) : String :=
  if components.contains "slsa-provenance"
      ∧ 3 ≤ (sbom_components_of components).length
      ∧ components.contains "vex-attestations" then "3+"
  else if components.contains "slsa-provenance"
      ∧ 1 ≤ (sbom_components_of components).length then "3"
  else if components.contains "slsa-provenance" then "2+"
  else "unknown"

/-- The report dict of `generate_verification_report`
(verify_attestations.py:408-440); the timestamp parameter stands for the
`date -Iseconds` subprocess result. -/
structure VerificationReport where
  image : String
  repository : String
  timestamp : String
  verified_components : List String
  slsa_level : String
  sbom_layers_verified : Nat
  has_vex_attestations : Bool
  has_runtime_filtered_sbom : Bool
  status : String
deriving DecidableEq

/-- `generate_verification_report()` as a function of the components
accumulated by the run. -/
def generate_verification_report (components : List String)
    (image repository timestamp : String) : VerificationReport :=
  { image := image,
    repository := repository,
    timestamp := timestamp,
    verified_components := components,
    slsa_level := slsa_level components,
    sbom_layers_verified := (sbom_components_of components).length,
    has_vex_attestations := components.contains "vex-attestations",
    has_runtime_filtered_sbom := components.contains "sbom-runtime-filtered",
    status := if components.isEmpty then "failed" else "verified" }

/-- The outcome of each external check performed by `main`
(verify_attestations.py:458-485).  Every check shells out to an external
tool; its success or failure is an input here.  `source_uri` is `some _`
when `--source-uri` was passed; `verified_sboms` is the list of SBOM layer
types the multi-layer check matched. -/
structure CheckOutcomes where
  signature_ok : Bool
  provenance_ok : Bool
  source_uri : Option String
  slsa_verifier_ok : Bool
  github_ok : Bool
  verified_sboms : List String
  vex_ok : Bool

/-- The `verified_components` list accumulated by a full run of `main`:
each successful check appends its tag, in call order
(verify_attestations.py:120,149,192,221,322,376). -/
def run_verifications (o : CheckOutcomes) : List String :=
  (if o.signature_ok then ["signature"] else [])
  ++ (if o.provenance_ok then ["slsa-provenance"] else [])
  ++ (match o.source_uri with
      | some _ => if o.slsa_verifier_ok then ["slsa-verifier"] else []
      | none => [])
  ++ (if o.github_ok then ["github-attestations"] else [])
  ++ o.verified_sboms.map (fun t => "sbom-" ++ t)
  ++ (if o.vex_ok then ["vex-attestations"] else [])

/-- `all_passed` in `main` (verify_attestations.py:459-472): only the
signature check, the provenance check and — when a source URI was given —
the slsa-verifier check feed it; the GitHub-attestation, SBOM-layer and VEX
checks are invoked but never clear it. -/
def all_passed (o : CheckOutcomes) : Bool :=
  o.signature_ok && o.provenance_ok &&
    (match o.source_uri with
     | some _ => o.slsa_verifier_ok
     | none => true)

/-- `sys.exit(0 if all_passed else 1)` (verify_attestations.py:510). -/
def main_exit_code (o : CheckOutcomes) : Nat :=
  if all_passed o then 0 else 1

/-- The report `main` writes for a run with the given check outcomes. -/
def main_report (o : CheckOutcomes) (image repository timestamp : String) :
    VerificationReport :=
  generate_verification_report (run_verifications o) image repository timestamp

/-! ## Concrete inputs used by witnesses and counterexamples -/

/-- A CRITICAL record, first in the current snapshot's insertion order. -/
def vuln_crit_a : Vuln :=
  { id := "CVE-A", package := "pkgA", installed_version := "1.0",
    severity := "CRITICAL", target := "tX", cvss_score := "9.1" }

/-- A second CRITICAL record, tied in rank with `vuln_crit_a`. -/
def vuln_crit_b : Vuln :=
  { id := "CVE-B", package := "pkgB", installed_version := "2.0",
    severity := "CRITICAL", target := "tX", cvss_score := "9.8" }

/-- The composite identity key of `vuln_crit_a`. -/
def key_a : String := "CVE-A:pkgA:1.0:tX"

/-- The composite identity key of `vuln_crit_b`. -/
def key_b : String := "CVE-B:pkgB:2.0:tX"

/-- An empty previous snapshot. -/
def snap_prev_empty : Snapshot := []

/-- A current snapshot with the two tied CRITICAL records, `vuln_crit_a`
inserted first. -/
def snap_two : Snapshot := [(key_a, vuln_crit_a), (key_b, vuln_crit_b)]

/-- A snapshot with one HIGH record, used both as previous and current so
that the diff adds nothing. -/
def snap_same : Snapshot :=
  [("CVE-2023-1:pkgA:1.0:targetX",
    { id := "CVE-2023-1", package := "pkgA", installed_version := "1.0",
      severity := "HIGH", target := "targetX" })]

/-- A Trivy record whose package name contains the marker `test` while its
severity is CRITICAL. -/
def vuln_testlib_critical : TrivyVuln :=
  { VulnerabilityID := "CVE-TL", PkgName := "test-lib",
    InstalledVersion := "3.1", Severity := "CRITICAL" }

/-- A MEDIUM Trivy record whose description matches the
`denial of service` non-exploitable pattern (rule 3) and that carries a
fixed version. -/
def vuln_dos_medium : TrivyVuln :=
  { VulnerabilityID := "CVE-DOS", PkgName := "openssl",
    InstalledVersion := "1.1", FixedVersion := "2.0", Severity := "MEDIUM",
    Description := "A Denial of Service issue in the parser" }

/-- Check outcomes where signature and provenance fail but the advisory
GitHub-attestation check succeeds. -/
def outcomes_advisory_only : CheckOutcomes :=
  { signature_ok := false, provenance_ok := false, source_uri := none,
    slsa_verifier_ok := false, github_ok := true, verified_sboms := [],
    vex_ok := false }

/-! ## Helper lemmas -/

/-- A severity count is positive exactly when some record has that
severity. -/
theorem count_severity_pos_iff (nv : List Vuln) (s : String) :
    (0 < count_severity nv s) ↔ nv.any (fun v => v.severity == s) = true := by
  induction nv with
  | nil => simp [count_severity]
  | cons v t ih =>
    cases h : (v.severity == s) with
    | true => simp [count_severity, List.filter_cons, h]
    | false => simpa [count_severity, List.filter_cons, h] using ih

/-- Positivity of a list's length versus its emptiness flag. -/
theorem length_pos_iff_not_empty (nv : List Vuln) :
    (0 < nv.length) ↔ (!nv.isEmpty) = true := by
  cases nv <;> simp

/-- The counting form of the risk cascade agrees with the spec's
existential form. -/
theorem risk_assessment_eq_spec (nv : List Vuln) :
    risk_assessment nv = risk_assessment_spec nv := by
  have hc := count_severity_pos_iff nv "CRITICAL"
  have hh := count_severity_pos_iff nv "HIGH"
  have hl := length_pos_iff_not_empty nv
  unfold risk_assessment risk_assessment_spec
  cases h1 : nv.any (fun v => v.severity == "CRITICAL") <;>
    cases h2 : nv.any (fun v => v.severity == "HIGH") <;>
      cases h3 : nv.isEmpty <;>
        simp_all

/-! ## C1: the diff partitions the two identity sets -/

/-- C1: for every pair of snapshots the Scan Differ's added and removed
identity sets are disjoint, added together with unchanged covers exactly the
current snapshot's identities, and removed together with unchanged covers
exactly the previous snapshot's identities (compare_scans.py:90-96). -/
theorem scan_diff_partition (prev cur : Snapshot) :
    (new_keys prev cur).toFinset ∩ (resolved_keys prev cur).toFinset = ∅ ∧
    (new_keys prev cur).toFinset ∪ (unchanged_keys prev cur).toFinset
      = (snapshot_keys cur).toFinset ∧
    (resolved_keys prev cur).toFinset ∪ (unchanged_keys prev cur).toFinset
      = (snapshot_keys prev).toFinset := by
  refine ⟨?_, ?_, ?_⟩ <;>
    · ext k
      simp only [new_keys, resolved_keys, unchanged_keys, Finset.mem_inter,
        Finset.mem_union, Finset.not_mem_empty,
        List.mem_toFinset, List.mem_filter, decide_eq_true_eq]
      tauto

/-! ## C2: the risk level and recommended action follow the cascade -/

/-- C2: the risk level and recommended-action string in the summary follow
the strict priority cascade over the added records: any added CRITICAL
record gives CRITICAL, else any added HIGH record gives HIGH, else any
addition gives MEDIUM, else LOW, each paired with its exact action string
(compare_scans.py:180-195). -/
theorem risk_level_priority_cascade (new_vulns resolved_vulns : List Vuln) :
    ((generate_summary new_vulns resolved_vulns).risk_level,
     (generate_summary new_vulns resolved_vulns).recommended_action)
      = risk_assessment_spec new_vulns := by
  simp [generate_summary, risk_assessment_eq_spec]

/-! ## C3: development/test markers force not_affected/code_not_present -/

/-- C3: any record whose package name contains one of the development/test
markers (case-insensitive substrings `test`, `dev`, `debug`, `mock`,
`fixture`) is classified `not_affected` with justification
`code_not_present`, regardless of its severity: rule 1 fires first
(generate_vex.py:70-74) and the fixed-version adjustment skips records that
are already `not_affected` (generate_vex.py:110). -/
theorem dev_marker_rule (vuln : TrivyVuln) (sbom : List SbomComponent)
    (image_ref : Option String)
    (h : ∃ m ∈ dev_markers, str_contains (py_lower vuln.PkgName) m = true) :
    (analyze_vulnerability vuln sbom image_ref).state = "not_affected" ∧
    (analyze_vulnerability vuln sbom image_ref).justification = "code_not_present" := by
  have h' : dev_markers.any (fun m => str_contains (py_lower vuln.PkgName) m) = true :=
    List.any_eq_true.mpr h
  unfold analyze_vulnerability analysis_cascade fixed_version_override
  by_cases hf : vuln.FixedVersion = "" <;> simp [h', hf]

/-- C3 witness: the `test-lib` package with severity CRITICAL is classified
`not_affected` / `code_not_present`. -/
theorem dev_marker_rule_witness :
    (∃ m ∈ dev_markers, str_contains (py_lower vuln_testlib_critical.PkgName) m = true) ∧
    vuln_testlib_critical.Severity = "CRITICAL" ∧
    (analyze_vulnerability vuln_testlib_critical [] none).state = "not_affected" ∧
    (analyze_vulnerability vuln_testlib_critical [] none).justification = "code_not_present" :=
  ⟨by decide, by decide,
   (dev_marker_rule vuln_testlib_critical [] none (by decide)).1,
   (dev_marker_rule vuln_testlib_critical [] none (by decide)).2⟩

/-! ## C4: the fixed-version adjustment fires iff not already not_affected -/

/-- C4: for a record with a non-empty fixed version, the post-cascade
adjustment forces state `affected`, response `["update"]` and appends the
`. Fixed in version X` note exactly when the cascade's state is not
`not_affected`; a record the cascade classified `not_affected` is returned
unchanged (generate_vex.py:107-113). -/
theorem fixed_version_adjustment (vuln : TrivyVuln) (sbom : List SbomComponent)
    (image_ref : Option String) (h : vuln.FixedVersion ≠ "") :
    ((analysis_cascade vuln).state ≠ "not_affected" →
      analyze_vulnerability vuln sbom image_ref =
        { analysis_cascade vuln with
          state := "affected"
          response := ["update"]
          detail := (analysis_cascade vuln).detail ++ ". Fixed in version "
            ++ vuln.FixedVersion }) ∧
    ((analysis_cascade vuln).state = "not_affected" →
      analyze_vulnerability vuln sbom image_ref = analysis_cascade vuln) := by
  unfold analyze_vulnerability fixed_version_override
  constructor <;> intro hs <;> simp [h, hs]

/-- C4 witness: a MEDIUM record matching the denial-of-service pattern is
classified `not_affected` by rule 3 and is not overridden even though its
fixed version `2.0` is present. -/
theorem fixed_version_adjustment_witness :
    vuln_dos_medium.FixedVersion = "2.0" ∧
    (analysis_cascade vuln_dos_medium).state = "not_affected" ∧
    (analysis_cascade vuln_dos_medium).justification = "requires_environment" ∧
    analyze_vulnerability vuln_dos_medium [] none = analysis_cascade vuln_dos_medium :=
  ⟨by decide, by decide, by decide,
   (fixed_version_adjustment vuln_dos_medium [] none (by decide)).2 (by decide)⟩

/-! ## C8: an unparsable scan document yields the default placeholder -/

/-- C8: when the Trivy document cannot be parsed the generator emits the
default document containing exactly one placeholder statement with status
`not_affected` and justification `code_not_present`
(generate_vex.py:154-159, 260-284), and every invocation — parsed or not —
produces a document with the OpenVEX `@context` and version fields. -/
theorem parse_failure_default_vex (sbom : List SbomComponent)
    (image_ref : Option String) (author now : String) :
    generate_vex_from_trivy none sbom image_ref author now
      = generate_default_vex image_ref author now ∧
    (generate_default_vex image_ref author now).statements.length = 1 ∧
    ((generate_default_vex image_ref author now).statements.all
       (fun st => st.status == "not_affected"
          && st.justification == some "code_not_present")) = true ∧
    (∀ parsed : Option TrivyData,
      (generate_vex_from_trivy parsed sbom image_ref author now).context
        = "https://openvex.dev/ns/v0.2.0" ∧
      (generate_vex_from_trivy parsed sbom image_ref author now).version = 1) := by
  refine ⟨rfl, rfl, ?_, ?_⟩
  · simp [generate_default_vex, create_openvex_document]
  · intro parsed
    cases parsed <;>
      simp [generate_vex_from_trivy, generate_default_vex, create_openvex_document]

/-! ## C5: the derived SLSA level -/

/-- The nested source derivation of the SLSA level equals the spec's flat
cascade. -/
theorem slsa_level_eq_spec (components : List String) :
    slsa_level components = slsa_level_spec components := by
  unfold slsa_level slsa_level_spec
  split_ifs <;> simp_all

/-- C5: the report's SLSA compliance level is `3+` when provenance was
verified, at least three SBOM layers were verified and a VEX attestation is
present; else `3` when provenance plus at least one SBOM layer; else `2+`
when provenance alone; else `unknown` (verify_attestations.py:408-421). -/
theorem slsa_level_derivation (components : List String)
    (image repository timestamp : String) :
    (generate_verification_report components image repository timestamp).slsa_level
      = slsa_level_spec components := by
  simp [generate_verification_report, slsa_level_eq_spec]

/-! ## C10: an advisory success makes the status verified despite exit 1 -/

/-- C10: the report's status is `verified` exactly when the run verified at
least one component — advisory checks included — so a run whose signature
and provenance checks both fail but whose GitHub-attestation check succeeds
reports status `verified` while the process still exits with code 1
(verify_attestations.py:439, 458-510). -/
theorem advisory_checks_drive_status :
    (∀ (o : CheckOutcomes) (image repository timestamp : String),
      ((main_report o image repository timestamp).status == "verified")
        = !(run_verifications o).isEmpty) ∧
    (main_report outcomes_advisory_only "img" "plamen/feelgood-api" "t0").status
      = "verified" ∧
    main_exit_code outcomes_advisory_only = 1 := by
  refine ⟨?_, by decide, by decide⟩
  intro o image repository timestamp
  simp only [main_report, generate_verification_report]
  cases h : (run_verifications o).isEmpty <;> simp [h]

/-! ## C6: the record selected as highest severity new vulnerability -/

/-- The running maximum of `max_step` is the seed or a list element. -/
theorem foldl_max_step_mem (t : List Vuln) : ∀ v : Vuln, t.foldl max_step v ∈ v :: t := by
  induction t with
  | nil => intro v; simp
  | cons b t ih =>
    intro v
    simp only [List.foldl_cons]
    have h := ih (max_step v b)
    have hm : max_step v b = v ∨ max_step v b = b := by
      unfold max_step; split <;> simp
    rcases List.mem_cons.mp h with h1 | h1
    · rcases hm with h2 | h2 <;> rw [h1, h2] <;> simp
    · simp [List.mem_cons, h1]

/-- The seed's rank never exceeds the running maximum's rank. -/
theorem foldl_max_step_le_init (t : List Vuln) :
    ∀ v : Vuln, vuln_rank v ≤ vuln_rank (t.foldl max_step v) := by
  induction t with
  | nil => intro v; simp
  | cons b t ih =>
    intro v
    simp only [List.foldl_cons]
    refine le_trans ?_ (ih (max_step v b))
    unfold max_step
    split
    · omega
    · exact le_refl _

/-- No list element's rank exceeds the running maximum's rank. -/
theorem foldl_max_step_le_mem (t : List Vuln) :
    ∀ v : Vuln, ∀ u ∈ t, vuln_rank u ≤ vuln_rank (t.foldl max_step v) := by
  induction t with
  | nil => intro v u hu; simp at hu
  | cons b t ih =>
    intro v u hu
    simp only [List.foldl_cons]
    rcases List.mem_cons.mp hu with h1 | h1
    · subst h1
      refine le_trans ?_ (foldl_max_step_le_init t (max_step v u))
      unfold max_step
      split <;> omega
    · exact ih (max_step v b) u h1

/-- Stability of Python's `max`: the element it returns is the first of the
list whose rank reaches the maximum. -/
theorem foldl_max_step_first (t : List Vuln) :
    ∀ v : Vuln,
      (v :: t).find? (fun u => decide (vuln_rank (t.foldl max_step v) ≤ vuln_rank u))
        = some (t.foldl max_step v) := by
  induction t with
  | nil =>
    intro v
    simp [List.find?]
  | cons b t ih =>
    intro v
    simp only [List.foldl_cons]
    by_cases hlt : vuln_rank v < vuln_rank b
    · have hsb : max_step v b = b := by unfold max_step; simp [hlt]
      simp only [hsb]
      have hbR : vuln_rank b ≤ vuln_rank (t.foldl max_step b) :=
        foldl_max_step_le_init t b
      rw [List.find?_cons_of_neg]
      · exact ih b
      · simp
        omega
    · have hsv : max_step v b = v := by unfold max_step; simp [hlt]
      simp only [hsv]
      have hIH := ih v
      by_cases hpv : vuln_rank (t.foldl max_step v) ≤ vuln_rank v
      · rw [List.find?_cons_of_pos _ (by simp [hpv])] at hIH
        rw [List.find?_cons_of_pos _ (by simp [hpv])]
        exact hIH
      · rw [List.find?_cons_of_neg _ (by simp [hpv])] at hIH
        rw [List.find?_cons_of_neg _ (by simp [hpv])]
        rw [List.find?_cons_of_neg]
        · exact hIH
        · simp
          omega

/-- What Python's `max(..., key=severity rank)` returns on a non-empty
list: a member of maximal rank, the first such member in list order. -/
theorem py_max_spec (l : List Vuln) (hne : l ≠ []) :
    ∃ v, py_max_by_severity l = some v ∧ v ∈ l ∧
      (∀ u ∈ l, vuln_rank u ≤ vuln_rank v) ∧
      l.find? (fun u => decide (vuln_rank v ≤ vuln_rank u)) = some v := by
  cases l with
  | nil => exact absurd rfl hne
  | cons v t =>
    refine ⟨t.foldl max_step v, rfl, foldl_max_step_mem t v, ?_, foldl_max_step_first t v⟩
    intro u hu
    rcases List.mem_cons.mp hu with h | h
    · subst h; exact foldl_max_step_le_init t u
    · exact foldl_max_step_le_mem t v u h

/-- C6 counterexample: with an empty previous snapshot and a current
snapshot holding two tied CRITICAL records (`vuln_crit_a` inserted first),
the set `current_keys - previous_keys` admits the valid iteration order
`[key_b, key_a]`, under which the summary reports the tie-broken highest new
vulnerability as `CVE-B` — not `CVE-A`, the first record in the current
snapshot's insertion order, which the canonical insertion-order enumeration
yields.  The reported record is therefore not determined by the snapshot's
insertion order, contradicting the claimed tie-break. -/
theorem highest_severity_tiebreak_cex :
    is_set_enum (new_keys snap_prev_empty snap_two) [key_b, key_a] = true ∧
    (generate_summary (lookup_vulns snap_two [key_b, key_a]) []).highest_severity_new
      = some { id := "CVE-B", severity := "CRITICAL", package := "pkgB",
               cvss_score := "9.8" } ∧
    (generate_summary (lookup_vulns snap_two (new_keys snap_prev_empty snap_two))
        []).highest_severity_new
      = some { id := "CVE-A", severity := "CRITICAL", package := "pkgA",
               cvss_score := "9.1" } := by
  refine ⟨by decide, by decide, by decide⟩

/-- C6 (amended): for every enumeration order of the added-key set, the
summary's highest severity new vulnerability is an added record of maximal
severity rank, and it is the first record of maximal rank in that
enumeration order (Python's `max` keeps the first maximum encountered); the
enumeration order of the key set is a CPython set-iteration order, which is
not guaranteed to be the current snapshot's insertion order. -/
theorem highest_severity_new_selection (prev cur : Snapshot) (order : List String)
    (resolved_vulns : List Vuln)
    (henum : is_set_enum (new_keys prev cur) order = true)
    (hne : lookup_vulns cur order ≠ []) :
    ∃ v, (generate_summary (lookup_vulns cur order) resolved_vulns).highest_severity_new
        = some (highest_new_of v) ∧
      v ∈ lookup_vulns cur order ∧
      (∀ u ∈ lookup_vulns cur order, vuln_rank u ≤ vuln_rank v) ∧
      (lookup_vulns cur order).find? (fun u => decide (vuln_rank v ≤ vuln_rank u))
        = some v := by
  obtain ⟨v, hmax, hmem, hle, hfirst⟩ := py_max_spec (lookup_vulns cur order) hne
  exact ⟨v, by simp [generate_summary, hmax], hmem, hle, hfirst⟩

/-- C6 witness for the amended theorem, at the valid enumeration
`[key_b, key_a]` of the two added keys. -/
theorem highest_severity_new_selection_witness :
    is_set_enum (new_keys snap_prev_empty snap_two) [key_b, key_a] = true ∧
    (∃ v, (generate_summary (lookup_vulns snap_two [key_b, key_a]) []).highest_severity_new
        = some (highest_new_of v) ∧
      v ∈ lookup_vulns snap_two [key_b, key_a] ∧
      (∀ u ∈ lookup_vulns snap_two [key_b, key_a], vuln_rank u ≤ vuln_rank v) ∧
      (lookup_vulns snap_two [key_b, key_a]).find?
          (fun u => decide (vuln_rank v ≤ vuln_rank u)) = some v) :=
  ⟨by decide,
   highest_severity_new_selection snap_prev_empty snap_two [key_b, key_a] []
     (by decide) (by decide)⟩

/-! ## C7: the constructor validates both inputs before any external call -/

/-- C7: the constructor raises for any artifact reference failing the OCI
pattern or the 512-character bound, and for any repository failing the
owner/name pattern or missing from the allow-list
(verify_attestations.py:24-61); the validation is pure and runs before any
subprocess — the embedded constructor makes no external call by
construction.  `ghcr.io/org/app:v1.2.3` passes the reference pattern while
`ghcr.io/org/app:../../etc` fails it. -/
theorem constructor_input_validation :
    (∀ image_ref repository : String, match_image_ref image_ref = false →
      is_accepted (attestation_verifier_init image_ref repository) = false) ∧
    (∀ image_ref repository : String, 512 < image_ref.length →
      is_accepted (attestation_verifier_init image_ref repository) = false) ∧
    (∀ image_ref repository : String, match_repo repository = false →
      is_accepted (attestation_verifier_init image_ref repository) = false) ∧
    (∀ image_ref repository : String, allowed_repos.contains repository = false →
      is_accepted (attestation_verifier_init image_ref repository) = false) ∧
    match_image_ref "ghcr.io/org/app:v1.2.3" = true ∧
    match_image_ref "ghcr.io/org/app:../../etc" = false := by
  refine ⟨?_, ?_, ?_, ?_, by decide, by decide⟩
  · intro r repo h
    unfold attestation_verifier_init validate_image_ref
    by_cases he : r = ""
    · simp [he, is_accepted]
    · simp [he, h, is_accepted]
  · intro r repo h
    unfold attestation_verifier_init validate_image_ref
    by_cases he : r = ""
    · simp [he, is_accepted]
    · cases hm : match_image_ref r
      · simp [he, hm, is_accepted]
      · simp [he, hm, h, is_accepted]
  · intro r repo h
    unfold attestation_verifier_init
    cases hv : validate_image_ref r with
    | error e => simp [is_accepted]
    | ok i =>
      unfold validate_repository
      by_cases he : repo = ""
      · simp [he, is_accepted]
      · simp [he, h, is_accepted]
  · intro r repo h
    unfold attestation_verifier_init
    cases hv : validate_image_ref r with
    | error e => simp [is_accepted]
    | ok i =>
      unfold validate_repository
      by_cases he : repo = ""
      · simp [he, is_accepted]
      · cases hm : match_repo repo
        · simp [he, hm, is_accepted]
        · have hmem : repo ∉ allowed_repos := by simpa using h
          simp [he, hm, hmem, is_accepted]

/-! ## C9: the delta report's top-level field names -/

/-- C9 counterexample: diffing the one-record snapshot against itself adds
nothing, and the emitted report then carries only six top-level keys — the
`new_vulnerabilities_by_severity` key is absent (compare_scans.py:115-118),
while the claim requires it even when the set of new vulnerabilities is
empty. -/
theorem delta_report_missing_severity_field :
    comparison_fields (compare_scans snap_same snap_same "2024-01-01T00:00:00") =
      ["comparison_metadata", "new_vulnerabilities", "resolved_vulnerabilities",
       "unchanged_vulnerabilities", "summary", "high_priority_new_vulnerabilities"] ∧
    (compare_scans snap_same snap_same "2024-01-01T00:00:00").new_vulnerabilities_by_severity
      = none := by
  refine ⟨by decide, by decide⟩

/-- C9 (amended): every delta report carries the six field names
`comparison_metadata`, `new_vulnerabilities`, `resolved_vulnerabilities`,
`unchanged_vulnerabilities`, `summary` and
`high_priority_new_vulnerabilities`; the seventh,
`new_vulnerabilities_by_severity`, is present exactly when the set of new
vulnerabilities is non-empty (compare_scans.py:98-127). -/
theorem delta_report_field_names (prev cur : Snapshot) (now : String) :
    ((comparison_fields (compare_scans prev cur now)).contains "comparison_metadata"
      = true) ∧
    ((comparison_fields (compare_scans prev cur now)).contains "new_vulnerabilities"
      = true) ∧
    ((comparison_fields (compare_scans prev cur now)).contains "resolved_vulnerabilities"
      = true) ∧
    ((comparison_fields (compare_scans prev cur now)).contains "unchanged_vulnerabilities"
      = true) ∧
    ((comparison_fields (compare_scans prev cur now)).contains "summary" = true) ∧
    ((comparison_fields (compare_scans prev cur now)).contains
        "high_priority_new_vulnerabilities" = true) ∧
    ((comparison_fields (compare_scans prev cur now)).contains
        "new_vulnerabilities_by_severity" = !(new_keys prev cur).isEmpty) := by
  unfold compare_scans comparison_fields
  cases h : (new_keys prev cur).isEmpty <;> simp [h]
